import Mathlib

/-!
# PanCardReader: a verification development

A shallow embedding of `src/PanCardReader/panCardReader.js` (the `PanCardReader`
React component) and proofs about its extraction rule and its event handlers.

Conventions of the embedding

* A JavaScript string is a Lean `String`; its characters are `String.data`.
  The regular expression of the component has neither the `i` nor the `u` flag and
  its classes are ranges of code units (`A-Z`, `0-9`), so a class is a range of
  character codes.
* The component state is the five `useState` cells plus the `srcObject` of the
  `<video>` element held by `videoRef`. The `<video ref={videoRef}>` element is
  rendered unconditionally, so `videoRef.current` is that element whenever a
  handler runs.
* No handler reads a state cell: each one only calls setters (with a constant, or
  with the functional update `prev => [...prev, panNumber]`) and reads `videoRef`.
  Applying the setters in program order to the current state is therefore exact.
* The two `async` handlers are split at their single `await`: the part that runs
  when the handler is invoked (`...Begin`) and the part that runs when the promise
  of `Tesseract.recognize` settles (`...Resume`).
-/

namespace PanCardReader

/-! ## The extraction rule: `/[A-Z]{5}[0-9]{4}[A-Z]/` and `String.prototype.match` -/

/-- A bracket class with a counted quantifier, `[lo-hi]{count}`. -/
structure ClassRepeat where
  lo : Char
  hi : Char
  count : Nat
  deriving Repr

/-- The class `[lo-hi]` accepts the characters whose code lies in the range. -/
def ClassRepeat.accepts (a : ClassRepeat) (c : Char) : Bool :=
  decide (a.lo.toNat ≤ c.toNat) && decide (c.toNat ≤ a.hi.toNat)

/-- The regular expression literal `/[A-Z]{5}[0-9]{4}[A-Z]/` of `extractPanNumber`. -/
def panNumberRegex : List ClassRepeat :=
  [⟨'A', 'Z', 5⟩, ⟨'0', '9', 4⟩, ⟨'A', 'Z', 1⟩]

/-- Consume exactly `n` characters of the class `a` from the front of the input:
the characters consumed and the rest, or `none` when one is missing or rejected. -/
def matchRepeat (a : ClassRepeat) : Nat → List Char → Option (List Char × List Char)
  | 0, rest => some ([], rest)
  | _ + 1, [] => none
  | n + 1, c :: cs =>
    if a.accepts c then
      match matchRepeat a n cs with
      | some (m, rest) => some (c :: m, rest)
      | none => none
    else none

/-- Match the whole pattern at the front of the input: the matched text. -/
def matchHere : List ClassRepeat → List Char → Option (List Char)
  | [], _ => some []
  | a :: as, cs =>
    match matchRepeat a a.count cs with
    | some (m, rest) =>
      match matchHere as rest with
      | some m' => some (m ++ m')
      | none => none
    | none => none

/-- The search of a regular expression without the `g` flag: the pattern is tried at
start index 0, 1, 2, ... up to the end of the input, and the first success is
the match (element `[0]` of the result of `text.match(re)`). -/
def regexMatch (re : List ClassRepeat) : List Char → Option (List Char)
  | [] => matchHere re []
  | c :: cs =>
    match matchHere re (c :: cs) with
    | some m => some m
    | none => regexMatch re cs

/-- The function `extractPanNumber` of the component; `none` is `null`. -/
def extractPanNumber (text : String) : Option String :=
  let panNumberMatch := regexMatch panNumberRegex text.data
  match panNumberMatch with
  | some m => some (String.mk m)
  | none => none

/-! ## The shape of a PAN number, written from its description -/

/-- An uppercase letter `A`..`Z`. -/
def isUpperAZ (c : Char) : Bool := decide ('A' ≤ c) && decide (c ≤ 'Z')

/-- A digit `0`..`9`. -/
def isDigit09 (c : Char) : Bool := decide ('0' ≤ c) && decide (c ≤ '9')

/-- Exactly ten characters: five uppercase letters, then four digits, then one
uppercase letter. -/
def IsPanNumber (s : List Char) : Prop :=
  s.length = 10 ∧ (s.take 5).all isUpperAZ = true ∧
    ((s.drop 5).take 4).all isDigit09 = true ∧ (s.drop 9).all isUpperAZ = true

instance (s : List Char) : Decidable (IsPanNumber s) := by
  unfold IsPanNumber; infer_instance


/-- The pattern at the front of the input, in terms of the input alone. -/
def PanAt (cs : List Char) : Prop :=
  10 ≤ cs.length ∧ (cs.take 5).all isUpperAZ = true ∧
    ((cs.drop 5).take 4).all isDigit09 = true ∧ ((cs.drop 9).take 1).all isUpperAZ = true

instance (cs : List Char) : Decidable (PanAt cs) := by
  unfold PanAt; infer_instance

/-! ## The component state -/

/-- The `readyState` of a media stream track. -/
inductive ReadyState
  | live
  | ended
  deriving DecidableEq, Repr

/-- A track of a camera stream. -/
structure MediaStreamTrack where
  id : String
  readyState : ReadyState
  deriving DecidableEq, Repr

/-- The call `track.stop()`. -/
def MediaStreamTrack.stop (track : MediaStreamTrack) : MediaStreamTrack :=
  { track with readyState := ReadyState.ended }

/-- A camera stream, as the list `stream.getTracks()`. -/
abbrev MediaStream := List MediaStreamTrack

/-- The state of the component: the cells `panNumbers`, `openCamera`, `loading`,
`error`, `uploadedImage` of `useState`, and `videoRef.current.srcObject`. -/
structure State where
  panNumbers : List String
  openCamera : Bool
  loading : Bool
  error : Option String
  uploadedImage : Option String
  srcObject : Option MediaStream
  deriving DecidableEq, Repr

/-- The state after the first render: the initial values given to `useState`, and a
video element with no stream attached. -/
def initialState : State :=
  { panNumbers := [], openCamera := false, loading := false, error := none,
    uploadedImage := none, srcObject := none }

/-- A file of the file input. -/
structure File where
  name : String
  deriving DecidableEq, Repr

/-- How the promise of `Tesseract.recognize` settles: it resolves with `data.text`,
or it rejects and the `await` throws. -/
inductive Recognition
  | text (text : String)
  | rejected
  deriving DecidableEq, Repr

/-- A call of `Tesseract.recognize` that a handler has issued and awaits: on the
uploaded file, or on the canvas holding the captured frame. -/
inductive RecognizeCall
  | file (file : File)
  | canvas (frame : String)
  deriving DecidableEq, Repr

/-- How `navigator.mediaDevices.getUserMedia` answers `handleCameraOpen`: the API is
missing, the promise resolves with a stream, or the promise rejects. -/
inductive CameraAccess
  | unsupported
  | granted (stream : MediaStream)
  | denied
  deriving DecidableEq, Repr

/-! ## The handlers -/

/-- The function `closeCameraStream`: when a stream is attached to the video element,
every one of its tracks is stopped. Nothing else is written. -/
def closeCameraStream (s : State) : State :=
  match s.srcObject with
  | some stream => { s with srcObject := some (stream.map MediaStreamTrack.stop) }
  | none => s

/-- The part of `handleImageUpload` that runs when the change event of the file input
fires, up to the `await`: the state it leaves and the recognition call it issued, if
any. `files` is `e.target.files` and `imageUrl` the result of
`URL.createObjectURL(file)`. -/
def handleImageUploadBegin (s : State) (files : List File) (imageUrl : String) :
    State × Option RecognizeCall :=
  let s := { s with loading := true }
  let s := { s with error := none }
  let s := closeCameraStream s
  match files.head? with
  | none => (s, none) -- `if (!file) return;`
  | some file =>
    let s := { s with uploadedImage := some imageUrl }
    (s, some (RecognizeCall.file file))

/-- The part of `handleImageUpload` that runs when the recognition settles: the rest
of the `try` block, the `catch` block and the `finally` block. The test
`if (panNumber)` is false for `null` and for the empty string. -/
def handleImageUploadResume (s : State) (r : Recognition) : State :=
  let s :=
    match r with
    | Recognition.text text =>
      match extractPanNumber text with
      | some panNumber =>
        if panNumber = "" then
          { s with error := some "PAN number not found in the uploaded image." }
        else { s with panNumbers := s.panNumbers ++ [panNumber] }
      | none => { s with error := some "PAN number not found in the uploaded image." }
    | Recognition.rejected => { s with error := some "Error reading PAN card. Please try again." }
  { s with loading := false }

/-- One complete run of `handleImageUpload`, from the event to the end of the
handler, with nothing else running in between. -/
def handleImageUpload (s : State) (files : List File) (imageUrl : String)
    (r : Recognition) : State :=
  match handleImageUploadBegin s files imageUrl with
  | (s, some _) => handleImageUploadResume s r
  | (s, none) => s

/-- The function `handleRemoveImage`. -/
def handleRemoveImage (s : State) : State :=
  let s := { s with uploadedImage := none }
  let s := { s with panNumbers := [] }
  closeCameraStream s

/-- The function `handleCameraOpen`, at the moment its outcome is known. In the
supported case the handler writes nothing before the promise of `getUserMedia`
settles, so the whole effect happens at that moment. -/
def handleCameraOpen (s : State) : CameraAccess → State
  | CameraAccess.unsupported => { s with error := some "Camera access not supported." }
  | CameraAccess.granted stream =>
    let s := { s with srcObject := some stream }
    { s with openCamera := true }
  | CameraAccess.denied => { s with error := some "Error accessing camera. Please try again." }

/-- The part of `handleImageCapture` that runs when the capture button is pressed, up
to the `await`. `frame` is the result of `canvas.toDataURL("image/jpeg")` for the
canvas the video frame was drawn on. -/
def handleImageCaptureBegin (s : State) (frame : String) : State × Option RecognizeCall :=
  let s := { s with loading := true }
  let s := { s with error := none }
  let s := { s with openCamera := false }
  let s := closeCameraStream s
  let s := { s with uploadedImage := some frame }
  (s, some (RecognizeCall.canvas frame))

/-- The part of `handleImageCapture` that runs when the recognition settles: the rest
of the `try` block, the `catch` block and the `finally` block. -/
def handleImageCaptureResume (s : State) (r : Recognition) : State :=
  let s :=
    match r with
    | Recognition.text text =>
      match extractPanNumber text with
      | some panNumber =>
        if panNumber = "" then
          { s with error := some "PAN number not found in the captured image." }
        else { s with panNumbers := s.panNumbers ++ [panNumber] }
      | none => { s with error := some "PAN number not found in the captured image." }
    | Recognition.rejected => { s with error := some "Error reading PAN card. Please try again." }
  { s with loading := false }

/-- One complete run of `handleImageCapture`, with nothing else running in between. -/
def handleImageCapture (s : State) (frame : String) (r : Recognition) : State :=
  match handleImageCaptureBegin s frame with
  | (s, some _) => handleImageCaptureResume s r
  | (s, none) => s

/-- The function `handleCopyPanNumber`: it writes to the clipboard and shows an alert;
no cell of the component state is written. -/
def handleCopyPanNumber (s : State) (_panNumber : String) : State := s

/-! ## Sequences of complete runs -/

/-- The identifier that a settled recognition yields: the result of the extraction
rule on the recognised text, and nothing when the recognition failed. -/
def Recognition.identifier : Recognition → Option String
  | Recognition.text recognized => extractPanNumber recognized
  | Recognition.rejected => none

/-- One upload or capture run with the answers of its environment. -/
inductive Run
  | upload (files : List File) (imageUrl : String) (r : Recognition)
  | capture (frame : String) (r : Recognition)
  deriving DecidableEq, Repr

/-- Execute one run to its end. -/
def Run.exec (s : State) : Run → State
  | Run.upload files imageUrl r => handleImageUpload s files imageUrl r
  | Run.capture frame r => handleImageCapture s frame r

/-- Execute runs one after another. -/
def runAll (s : State) (runs : List Run) : State := runs.foldl Run.exec s

/-- The identifier that a run yields: the one of its recognition, and nothing for an
upload without a file, which makes no recognition. -/
def Run.identifier : Run → Option String
  | Run.upload [] _ _ => none
  | Run.upload (_ :: _) _ r => r.identifier
  | Run.capture _ r => r.identifier

/-! ## The component as a transition system -/

/-- The component together with the recognition calls that are outstanding. -/
structure World where
  state : State
  inFlight : List RecognizeCall
  deriving DecidableEq, Repr

/-- The world after the first render. -/
def initialWorld : World := { state := initialState, inFlight := [] }

/-- What can happen to the component: a user intent reaching a handler, or the
`i`-th outstanding recognition call settling. -/
inductive Action
  | cameraOpen (a : CameraAccess)
  | closeCamera
  | upload (files : List File) (imageUrl : String)
  | capture (frame : String)
  | settle (i : Nat) (r : Recognition)
  | removeImage
  | copy (panNumber : String)
  deriving DecidableEq, Repr

/-- One step of the component. -/
def World.step (w : World) : Action → World
  | Action.cameraOpen a => { w with state := handleCameraOpen w.state a }
  | Action.closeCamera => { w with state := closeCameraStream w.state }
  | Action.upload files imageUrl =>
    match handleImageUploadBegin w.state files imageUrl with
    | (s, call) => { state := s, inFlight := w.inFlight ++ call.toList }
  | Action.capture frame =>
    match handleImageCaptureBegin w.state frame with
    | (s, call) => { state := s, inFlight := w.inFlight ++ call.toList }
  | Action.settle i r =>
    match w.inFlight.get? i with
    | some (RecognizeCall.file _) =>
      { state := handleImageUploadResume w.state r, inFlight := w.inFlight.eraseIdx i }
    | some (RecognizeCall.canvas _) =>
      { state := handleImageCaptureResume w.state r, inFlight := w.inFlight.eraseIdx i }
    | none => w
  | Action.removeImage => { w with state := handleRemoveImage w.state }
  | Action.copy panNumber => { w with state := handleCopyPanNumber w.state panNumber }

/-- Execute a list of actions from a world. -/
def World.run (w : World) (actions : List Action) : World := actions.foldl World.step w

/-- The worlds the component can be in: the initial one and every one a step away
from a reachable one. -/
inductive Reachable : World → Prop
  | init : Reachable initialWorld
  | step (w : World) (a : Action) : Reachable w → Reachable (w.step a)

/-- The truth value JavaScript gives an optional string: `null` and the empty string
are falsy. -/
def truthy : Option String → Bool
  | some u => decide (u ≠ "")
  | none => false

/-- Whether the rendered page offers the control behind an action: the camera buttons
are rendered under `!uploadedImage`, the capture button under `openCamera`, the
remove button under `uploadedImage`, a copy icon for each listed number; the file
input is always rendered, and a settlement is not a control. -/
def offered (s : State) : Action → Bool
  | Action.cameraOpen _ => !truthy s.uploadedImage
  | Action.closeCamera => !truthy s.uploadedImage
  | Action.upload _ _ => true
  | Action.capture _ => s.openCamera
  | Action.settle _ _ => true
  | Action.removeImage => truthy s.uploadedImage
  | Action.copy panNumber => decide (panNumber ∈ s.panNumbers)

/-! ## Sample inputs -/

/-- A file picked in the file input. -/
def sampleFile : File := { name := "pan.jpg" }

/-- A second file picked in the file input. -/
def otherFile : File := { name := "other.jpg" }

/-- A camera stream with one live video track. -/
def sampleStream : MediaStream := [{ id := "video-0", readyState := ReadyState.live }]

/-- The component showing an image in which no PAN number was found: a file is
uploaded and its recognition settles with a text that has no match. -/
def notFoundWorld : World :=
  initialWorld.run
    [Action.upload [sampleFile] "blob:pan",
      Action.settle 0 (Recognition.text "no identifier here")]

/-- The component showing an uploaded image in which no PAN number was found, the
camera having been opened before the upload. -/
def cameraThenNotFoundWorld : World :=
  initialWorld.run
    [Action.cameraOpen (CameraAccess.granted sampleStream),
      Action.upload [sampleFile] "blob:pan",
      Action.settle 0 (Recognition.text "no identifier here")]

/-- The component with a live camera: access to the camera was granted. -/
def cameraLiveWorld : World :=
  initialWorld.run [Action.cameraOpen (CameraAccess.granted sampleStream)]

/-- The component after an access to the camera was denied. -/
def cameraDeniedWorld : World :=
  initialWorld.run [Action.cameraOpen CameraAccess.denied]

/-- The component while the recognition of an uploaded file is outstanding. -/
def recognizingWorld : World :=
  initialWorld.run [Action.upload [sampleFile] "blob:pan"]

/-- The component after one PAN number was read from an uploaded file. -/
def oneNumberWorld : World :=
  initialWorld.run
    [Action.upload [sampleFile] "blob:pan",
      Action.settle 0 (Recognition.text "PAN: ABCDE1234F")]

/-! ## The extraction rule is the leftmost match -/

theorem accepts_upper (n : Nat) :
    (ClassRepeat.mk 'A' 'Z' n).accepts = isUpperAZ := by
  funext c
  simp only [ClassRepeat.accepts, isUpperAZ, Char.le_def, Char.toNat, UInt32.le_def]
  rfl

theorem accepts_digit (n : Nat) :
    (ClassRepeat.mk '0' '9' n).accepts = isDigit09 := by
  funext c
  simp only [ClassRepeat.accepts, isDigit09, Char.le_def, Char.toNat, UInt32.le_def]
  rfl

theorem matchRepeat_eq (a : ClassRepeat) (n : Nat) (cs : List Char) :
    matchRepeat a n cs =
      if n ≤ cs.length ∧ (cs.take n).all a.accepts = true then some (cs.take n, cs.drop n)
      else none := by
  induction n generalizing cs with
  | zero => simp [matchRepeat]
  | succ n ih =>
    cases cs with
    | nil => simp [matchRepeat]
    | cons c cs =>
      simp only [matchRepeat, ih cs]
      by_cases hc : a.accepts c = true
      · by_cases h : n ≤ cs.length ∧ (cs.take n).all a.accepts = true
        · simp [hc, h]
        · have hn : ¬ (n + 1 ≤ (c :: cs).length ∧
              (List.take (n + 1) (c :: cs)).all a.accepts = true) := by
            simp only [List.length_cons, Nat.add_le_add_iff_right, List.take_succ_cons,
              List.all_cons, hc, Bool.true_and]
            exact h
          simp only [hc, if_true, h, if_false]
          rw [if_neg hn]
      · have hn : ¬ (n + 1 ≤ (c :: cs).length ∧
            (List.take (n + 1) (c :: cs)).all a.accepts = true) := by
          intro h
          apply hc
          have := h.2
          simp only [List.take_succ_cons, List.all_cons, Bool.and_eq_true] at this
          exact this.1
        rw [if_neg hn]
        simp [hc]

theorem matchHere_pan (cs : List Char) :
    matchHere panNumberRegex cs = if PanAt cs then some (cs.take 10) else none := by
  have hcat : cs.take 5 ++ ((cs.drop 5).take 4 ++ ((cs.drop 9).take 1 ++ [])) = cs.take 10 := by
    rw [List.append_nil]
    have h1 : (cs.drop 5).take 4 ++ (cs.drop 9).take 1 = (cs.drop 5).take 5 := by
      have := List.take_add (cs.drop 5) 4 1
      rw [List.drop_drop] at this
      exact this.symm
    rw [h1]
    exact (List.take_add cs 5 5).symm
  simp only [panNumberRegex, matchHere, matchRepeat_eq, accepts_upper, accepts_digit]
  by_cases h : PanAt cs
  · obtain ⟨hl, h1, h2, h3⟩ := h
    have h := (show PanAt cs from ⟨hl, h1, h2, h3⟩)
    have c1 : 5 ≤ cs.length ∧ (cs.take 5).all isUpperAZ = true := ⟨by omega, h1⟩
    have c2 : 4 ≤ (cs.drop 5).length ∧ ((cs.drop 5).take 4).all isDigit09 = true :=
      ⟨by rw [List.length_drop]; omega, h2⟩
    have c3 : 1 ≤ ((cs.drop 5).drop 4).length ∧
        (((cs.drop 5).drop 4).take 1).all isUpperAZ = true := by
      rw [List.drop_drop]
      exact ⟨by rw [List.length_drop]; omega, h3⟩
    rw [if_pos c1]
    simp only
    rw [if_pos c2]
    simp only
    rw [if_pos c3]
    simp only
    rw [if_pos h, List.drop_drop, hcat]
  · rw [if_neg h]
    by_cases c1 : 5 ≤ cs.length ∧ (cs.take 5).all isUpperAZ = true
    · rw [if_pos c1]
      simp only
      by_cases c2 : 4 ≤ (cs.drop 5).length ∧ ((cs.drop 5).take 4).all isDigit09 = true
      · rw [if_pos c2]
        simp only
        by_cases c3 : 1 ≤ ((cs.drop 5).drop 4).length ∧
            (((cs.drop 5).drop 4).take 1).all isUpperAZ = true
        · exfalso
          apply h
          rw [List.drop_drop] at c3
          have l2 := c2.1
          have l3 := c3.1
          rw [List.length_drop] at l2 l3
          exact ⟨by omega, c1.2, c2.2, c3.2⟩
        · rw [if_neg c3]
      · rw [if_neg c2]
    · rw [if_neg c1]

theorem panAt_iff (cs : List Char) : PanAt cs ↔ 10 ≤ cs.length ∧ IsPanNumber (cs.take 10) := by
  unfold PanAt IsPanNumber
  constructor
  · rintro ⟨hl, h1, h2, h3⟩
    refine ⟨hl, ?_, ?_, ?_, ?_⟩
    · rw [List.length_take]; omega
    · rw [List.take_take]; exact h1
    · rw [List.drop_take, List.take_take]; exact h2
    · rw [List.drop_take]; exact h3
  · rintro ⟨hl, -, h1, h2, h3⟩
    refine ⟨hl, ?_, ?_, ?_⟩
    · rw [List.take_take] at h1; exact h1
    · rw [List.drop_take, List.take_take] at h2; exact h2
    · rw [List.drop_take] at h3; exact h3


theorem regexMatch_none (re : List ClassRepeat) (cs : List Char) :
    regexMatch re cs = none ↔ ∀ pre rest, cs = pre ++ rest → matchHere re rest = none := by
  induction cs with
  | nil =>
    simp only [regexMatch]
    constructor
    · intro h pre rest e
      have := List.append_eq_nil.mp e.symm
      rw [this.2]; exact h
    · intro h; exact h [] [] rfl
  | cons c cs ih =>
    simp only [regexMatch]
    constructor
    · intro h pre rest e
      cases hm : matchHere re (c :: cs) with
      | some m => rw [hm] at h; cases h
      | none =>
        rw [hm] at h
        cases pre with
        | nil => rw [List.nil_append] at e; rw [← e]; exact hm
        | cons p pre =>
          rw [List.cons_append] at e
          injection e with _ e
          exact ih.mp h pre rest e
    · intro h
      rw [h [] (c :: cs) rfl]
      exact ih.mpr (fun pre rest e => h (c :: pre) rest (by rw [e]; rfl))

theorem regexMatch_some (re : List ClassRepeat) (cs m : List Char) :
    regexMatch re cs = some m ↔
      ∃ pre rest, cs = pre ++ rest ∧ matchHere re rest = some m ∧
        ∀ pre' rest', cs = pre' ++ rest' → pre'.length < pre.length →
          matchHere re rest' = none := by
  induction cs with
  | nil =>
    simp only [regexMatch]
    constructor
    · intro h
      exact ⟨[], [], rfl, h, fun pre' _ _ hl => absurd hl (Nat.not_lt_zero _)⟩
    · rintro ⟨pre, rest, e, h, -⟩
      have := List.append_eq_nil.mp e.symm
      rw [this.2] at h; exact h
  | cons c cs ih =>
    simp only [regexMatch]
    cases hm : matchHere re (c :: cs) with
    | some m0 =>
      simp only
      constructor
      · intro h
        refine ⟨[], c :: cs, rfl, ?_, fun pre' _ _ hl => absurd hl (Nat.not_lt_zero _)⟩
        rw [hm]; exact h
      · rintro ⟨pre, rest, e, h, hmin⟩
        cases pre with
        | nil => rw [List.nil_append] at e; rw [← e, hm] at h; exact h
        | cons p pre =>
          have := hmin [] (c :: cs) rfl (by simp)
          rw [hm] at this; cases this
    | none =>
      simp only
      rw [ih]
      constructor
      · rintro ⟨pre, rest, e, h, hmin⟩
        refine ⟨c :: pre, rest, by rw [e]; rfl, h, ?_⟩
        intro pre' rest' e' hl
        cases pre' with
        | nil => rw [List.nil_append] at e'; rw [← e']; exact hm
        | cons p pre' =>
          rw [List.cons_append] at e'
          injection e' with _ e'
          exact hmin pre' rest' e' (by simpa using hl)
      · rintro ⟨pre, rest, e, h, hmin⟩
        cases pre with
        | nil => rw [List.nil_append] at e; rw [← e, hm] at h; cases h
        | cons p pre =>
          rw [List.cons_append] at e
          injection e with _ e
          refine ⟨pre, rest, e, h, ?_⟩
          intro pre' rest' e' hl
          exact hmin (c :: pre') rest' (by rw [e']; rfl) (by simpa using hl)


theorem matchHere_some_iff (rest m : List Char) :
    matchHere panNumberRegex rest = some m ↔ ∃ post, rest = m ++ post ∧ IsPanNumber m := by
  rw [matchHere_pan]
  constructor
  · intro h
    by_cases hp : PanAt rest
    · rw [if_pos hp] at h
      injection h with h
      subst h
      exact ⟨rest.drop 10, (List.take_append_drop 10 rest).symm, ((panAt_iff rest).mp hp).2⟩
    · rw [if_neg hp] at h; cases h
  · rintro ⟨post, e, hm⟩
    have hl : m.length = 10 := hm.1
    have ht : rest.take 10 = m := by
      rw [e, ← hl]; exact List.take_left' rfl
    have hp : PanAt rest := by
      rw [panAt_iff, ht]
      refine ⟨?_, hm⟩
      rw [e, List.length_append]; omega
    rw [if_pos hp, ht]

theorem matchHere_none_iff (rest : List Char) :
    matchHere panNumberRegex rest = none ↔
      ∀ q post, rest = q ++ post → ¬ IsPanNumber q := by
  constructor
  · intro h q post e hq
    have := (matchHere_some_iff rest q).mpr ⟨post, e, hq⟩
    rw [h] at this; cases this
  · intro h
    cases hm : matchHere panNumberRegex rest with
    | none => rfl
    | some m =>
      obtain ⟨post, e, hq⟩ := (matchHere_some_iff rest m).mp hm
      exact absurd hq (h m post e)

theorem extractPanNumber_eq_some (text p : String) :
    extractPanNumber text = some p ↔ regexMatch panNumberRegex text.data = some p.data := by
  unfold extractPanNumber
  cases h : regexMatch panNumberRegex text.data with
  | none => simp
  | some m =>
    simp only [Option.some.injEq]
    constructor
    · intro e; rw [← e]
    · intro e; rw [e]

theorem extractPanNumber_eq_none (text : String) :
    extractPanNumber text = none ↔ regexMatch panNumberRegex text.data = none := by
  unfold extractPanNumber
  cases h : regexMatch panNumberRegex text.data with
  | none => simp
  | some m => simp

/-- C1. For every text, `extractPanNumber` returns a string exactly when that string is
the leftmost substring of the text made of five characters `A`-`Z`, four characters
`0`-`9` and one character `A`-`Z` (returned verbatim); it returns `null` exactly when
the text has no such substring; and the sample text gives `ABCDE1234F`. -/
theorem extractPanNumber_leftmost_match (text : String) :
    (∀ p : String, extractPanNumber text = some p ↔
      ∃ pre post : List Char, text.data = pre ++ p.data ++ post ∧ IsPanNumber p.data ∧
        ∀ pre' q post', text.data = pre' ++ q ++ post' → IsPanNumber q →
          pre.length ≤ pre'.length) ∧
    (extractPanNumber text = none ↔
      ∀ pre q post, text.data = pre ++ q ++ post → ¬ IsPanNumber q) ∧
    extractPanNumber "Name: RAHUL SHARMA PAN: ABCDE1234F DOB: 01/01/1990"
      = some "ABCDE1234F" := by
  refine ⟨?_, ?_, by decide⟩
  · intro p
    rw [extractPanNumber_eq_some, regexMatch_some]
    constructor
    · rintro ⟨pre, rest, e, hm, hmin⟩
      obtain ⟨post, er, hp⟩ := (matchHere_some_iff rest p.data).mp hm
      refine ⟨pre, post, by rw [e, er, List.append_assoc], hp, ?_⟩
      intro pre' q post' e' hq
      by_contra hlt
      have hnone := hmin pre' (q ++ post') (by rw [e', List.append_assoc]) (by omega)
      exact (matchHere_none_iff _).mp hnone q post' rfl hq
    · rintro ⟨pre, post, e, hp, hmin⟩
      refine ⟨pre, p.data ++ post, by rw [e, List.append_assoc],
        (matchHere_some_iff _ _).mpr ⟨post, rfl, hp⟩, ?_⟩
      intro pre' rest' e' hl
      rw [matchHere_none_iff]
      intro q post' er hq
      have := hmin pre' q post' (by rw [e', er, List.append_assoc]) hq
      omega
  · rw [extractPanNumber_eq_none, regexMatch_none]
    constructor
    · intro h pre q post e hq
      exact (matchHere_none_iff _).mp (h pre (q ++ post) (by rw [e, List.append_assoc]))
        q post rfl hq
    · intro h pre rest e
      rw [matchHere_none_iff]
      intro q post er hq
      exact h pre q post (by rw [e, er, List.append_assoc]) hq

/-! ## Facts about the handlers -/

theorem extractPanNumber_shape (text p : String) (h : extractPanNumber text = some p) :
    IsPanNumber p.data := by
  rw [extractPanNumber_eq_some, regexMatch_some] at h
  obtain ⟨_, rest, _, hm, _⟩ := h
  obtain ⟨_, _, hp⟩ := (matchHere_some_iff rest p.data).mp hm
  exact hp

theorem extractPanNumber_ne_empty (text p : String) (h : extractPanNumber text = some p) :
    p ≠ "" := by
  intro e
  have := (extractPanNumber_shape text p h).1
  rw [e] at this
  cases this

theorem uploadResume_panNumbers (s : State) (r : Recognition) :
    (handleImageUploadResume s r).panNumbers = s.panNumbers ++ r.identifier.toList := by
  cases r with
  | rejected => simp [handleImageUploadResume, Recognition.identifier]
  | text t =>
    cases h : extractPanNumber t with
    | none => simp [handleImageUploadResume, Recognition.identifier, h]
    | some p =>
      have := extractPanNumber_ne_empty t p h
      simp [handleImageUploadResume, Recognition.identifier, h, this]

theorem captureResume_panNumbers (s : State) (r : Recognition) :
    (handleImageCaptureResume s r).panNumbers = s.panNumbers ++ r.identifier.toList := by
  cases r with
  | rejected => simp [handleImageCaptureResume, Recognition.identifier]
  | text t =>
    cases h : extractPanNumber t with
    | none => simp [handleImageCaptureResume, Recognition.identifier, h]
    | some p =>
      have := extractPanNumber_ne_empty t p h
      simp [handleImageCaptureResume, Recognition.identifier, h, this]

theorem closeCameraStream_panNumbers (s : State) :
    (closeCameraStream s).panNumbers = s.panNumbers := by
  unfold closeCameraStream; cases s.srcObject <;> rfl

theorem closeCameraStream_uploadedImage (s : State) :
    (closeCameraStream s).uploadedImage = s.uploadedImage := by
  unfold closeCameraStream; cases s.srcObject <;> rfl

theorem closeCameraStream_error (s : State) :
    (closeCameraStream s).error = s.error := by
  unfold closeCameraStream; cases s.srcObject <;> rfl

theorem closeCameraStream_loading (s : State) :
    (closeCameraStream s).loading = s.loading := by
  unfold closeCameraStream; cases s.srcObject <;> rfl

theorem closeCameraStream_openCamera (s : State) :
    (closeCameraStream s).openCamera = s.openCamera := by
  unfold closeCameraStream; cases s.srcObject <;> rfl

theorem closeCameraStream_srcObject (s : State) :
    (closeCameraStream s).srcObject = s.srcObject.map (List.map MediaStreamTrack.stop) := by
  unfold closeCameraStream; cases h : s.srcObject <;> simp [h]

theorem uploadBegin_panNumbers (s : State) (files : List File) (imageUrl : String) :
    (handleImageUploadBegin s files imageUrl).1.panNumbers = s.panNumbers := by
  unfold handleImageUploadBegin
  cases files.head? <;> simp [closeCameraStream_panNumbers]

theorem captureBegin_panNumbers (s : State) (frame : String) :
    (handleImageCaptureBegin s frame).1.panNumbers = s.panNumbers := by
  unfold handleImageCaptureBegin
  simp [closeCameraStream_panNumbers]

theorem removeImage_panNumbers (s : State) : (handleRemoveImage s).panNumbers = [] := by
  unfold handleRemoveImage
  simp [closeCameraStream_panNumbers]

theorem cameraOpen_panNumbers (s : State) (a : CameraAccess) :
    (handleCameraOpen s a).panNumbers = s.panNumbers := by
  cases a <;> rfl

theorem upload_panNumbers (s : State) (files : List File) (imageUrl : String)
    (r : Recognition) :
    (handleImageUpload s files imageUrl r).panNumbers =
      s.panNumbers ++ (Run.upload files imageUrl r).identifier.toList := by
  cases files with
  | nil =>
    simp [handleImageUpload, handleImageUploadBegin, Run.identifier,
      closeCameraStream_panNumbers]
  | cons file files =>
    simp [handleImageUpload, handleImageUploadBegin, Run.identifier,
      uploadResume_panNumbers, closeCameraStream_panNumbers]

theorem capture_panNumbers (s : State) (frame : String) (r : Recognition) :
    (handleImageCapture s frame r).panNumbers =
      s.panNumbers ++ (Run.capture frame r).identifier.toList := by
  simp [handleImageCapture, handleImageCaptureBegin, Run.identifier,
    captureResume_panNumbers, closeCameraStream_panNumbers]

theorem runAll_panNumbers (s : State) (runs : List Run) :
    (runAll s runs).panNumbers = s.panNumbers ++ runs.filterMap Run.identifier := by
  induction runs generalizing s with
  | nil => simp [runAll]
  | cons run runs ih =>
    have hstep : (Run.exec s run).panNumbers = s.panNumbers ++ run.identifier.toList := by
      cases run with
      | upload files imageUrl r => exact upload_panNumbers s files imageUrl r
      | capture frame r => exact capture_panNumbers s frame r
    have := ih (Run.exec s run)
    simp only [runAll, List.foldl_cons] at this ⊢
    rw [this, hstep, List.append_assoc]
    cases h : run.identifier <;> simp [List.filterMap_cons, h]

theorem filterMap_of_map_eq_some (runs : List Run) (ids : List String)
    (h : runs.map Run.identifier = ids.map some) : runs.filterMap Run.identifier = ids := by
  induction runs generalizing ids with
  | nil =>
    cases ids with
    | nil => rfl
    | cons i ids => simp at h
  | cons run runs ih =>
    cases ids with
    | nil => simp at h
    | cons i ids =>
      simp only [List.map_cons, List.cons.injEq] at h
      rw [List.filterMap_cons, h.1, ih ids h.2]

/-! ## The claims -/

/-- Witness of C1: the sample text, where the match starts after `... PAN: `. -/
theorem extractPanNumber_leftmost_match_witness :
    ∃ pre post : List Char,
      "Name: RAHUL SHARMA PAN: ABCDE1234F DOB: 01/01/1990".data
        = pre ++ "ABCDE1234F".data ++ post ∧
      IsPanNumber "ABCDE1234F".data ∧
      ∀ pre' q post',
        "Name: RAHUL SHARMA PAN: ABCDE1234F DOB: 01/01/1990".data = pre' ++ q ++ post' →
          IsPanNumber q → pre.length ≤ pre'.length :=
  ((extractPanNumber_leftmost_match
    "Name: RAHUL SHARMA PAN: ABCDE1234F DOB: 01/01/1990").1 "ABCDE1234F").mp (by decide)

/-- C5. Starting from any list of PAN numbers, after upload and capture runs executed
one after another whose recognised texts yield the identifiers `ids` in run order,
the list is the starting list followed by `ids`: every identifier is appended at the
end, in order, duplicates included. -/
theorem panNumbers_append_order (s : State) (runs : List Run) (ids : List String)
    (h : runs.map Run.identifier = ids.map some) :
    (runAll s runs).panNumbers = s.panNumbers ++ ids := by
  rw [runAll_panNumbers, filterMap_of_map_eq_some runs ids h]

/-- Witness of C5: two runs that read the same number, after a list of one number. -/
theorem panNumbers_append_order_witness :
    [Run.upload [sampleFile] "blob:pan" (Recognition.text "PAN: ABCDE1234F"),
        Run.capture "data:image/jpeg;base64,AA" (Recognition.text "ABCDE1234F")].map
        Run.identifier = ["ABCDE1234F", "ABCDE1234F"].map some ∧
    (runAll oneNumberWorld.state
        [Run.upload [sampleFile] "blob:pan" (Recognition.text "PAN: ABCDE1234F"),
          Run.capture "data:image/jpeg;base64,AA" (Recognition.text "ABCDE1234F")]).panNumbers
      = oneNumberWorld.state.panNumbers ++ ["ABCDE1234F", "ABCDE1234F"] :=
  ⟨by decide, panNumbers_append_order _ _ _ (by decide)⟩

/-- C6. An upload run (with a file) or a capture run whose recognition yields no
identifier leaves `panNumbers` as it was and `uploadedImage` at the newly acquired
image; the error is the generic reading failure when the recognition call throws, and
otherwise a not-found message, which is not the same for an upload and a capture. -/
theorem run_without_identifier (s : State) (file : File) (files : List File)
    (imageUrl frame : String) (r : Recognition) (h : r.identifier = none) :
    (handleImageUpload s (file :: files) imageUrl r).panNumbers = s.panNumbers ∧
    (handleImageUpload s (file :: files) imageUrl r).uploadedImage = some imageUrl ∧
    (handleImageUpload s (file :: files) imageUrl r).error =
      some (match r with
        | Recognition.rejected => "Error reading PAN card. Please try again."
        | Recognition.text _ => "PAN number not found in the uploaded image.") ∧
    (handleImageCapture s frame r).panNumbers = s.panNumbers ∧
    (handleImageCapture s frame r).uploadedImage = some frame ∧
    (handleImageCapture s frame r).error =
      some (match r with
        | Recognition.rejected => "Error reading PAN card. Please try again."
        | Recognition.text _ => "PAN number not found in the captured image.") ∧
    "PAN number not found in the uploaded image." ≠
      "PAN number not found in the captured image." := by
  refine ⟨?_, ?_, ?_, ?_, ?_, ?_, by decide⟩
  · rw [upload_panNumbers]; simp [Run.identifier, h]
  · cases r with
    | rejected => simp [handleImageUpload, handleImageUploadBegin, handleImageUploadResume]
    | text t =>
      have ht : extractPanNumber t = none := h
      simp [handleImageUpload, handleImageUploadBegin, handleImageUploadResume, ht]
  · cases r with
    | rejected => simp [handleImageUpload, handleImageUploadBegin, handleImageUploadResume]
    | text t =>
      have ht : extractPanNumber t = none := h
      simp [handleImageUpload, handleImageUploadBegin, handleImageUploadResume, ht]
  · rw [capture_panNumbers]; simp [Run.identifier, h]
  · cases r with
    | rejected => simp [handleImageCapture, handleImageCaptureBegin, handleImageCaptureResume]
    | text t =>
      have ht : extractPanNumber t = none := h
      simp [handleImageCapture, handleImageCaptureBegin, handleImageCaptureResume, ht]
  · cases r with
    | rejected => simp [handleImageCapture, handleImageCaptureBegin, handleImageCaptureResume]
    | text t =>
      have ht : extractPanNumber t = none := h
      simp [handleImageCapture, handleImageCaptureBegin, handleImageCaptureResume, ht]

/-- Witness of C6: the recognised text `no identifier here`, after one number was read. -/
theorem run_without_identifier_witness :
    (Recognition.text "no identifier here").identifier = none ∧
    (handleImageUpload oneNumberWorld.state [sampleFile] "blob:next"
      (Recognition.text "no identifier here")).panNumbers = ["ABCDE1234F"] ∧
    (handleImageUpload oneNumberWorld.state [sampleFile] "blob:next"
      (Recognition.text "no identifier here")).error =
        some "PAN number not found in the uploaded image." ∧
    (handleImageCapture oneNumberWorld.state "data:image/jpeg;base64,AA"
      (Recognition.text "no identifier here")).error =
        some "PAN number not found in the captured image." :=
  have h := run_without_identifier oneNumberWorld.state sampleFile [] "blob:next"
    "data:image/jpeg;base64,AA" (Recognition.text "no identifier here") (by decide)
  ⟨by decide, h.1, h.2.2.1, h.2.2.2.2.2.1⟩

/-- C7. In every world reachable from the initial one by any sequence of actions,
with any recognised texts, every element of `panNumbers` is ten characters long: five
uppercase letters, then four digits, then one uppercase letter. -/
theorem reachable_panNumbers_shape (w : World) (h : Reachable w) :
    ∀ p ∈ w.state.panNumbers, IsPanNumber p.data := by
  induction h with
  | init => intro p hp; simp [initialWorld, initialState] at hp
  | step w a _ ih =>
    have happ : ∀ r : Recognition, ∀ p ∈ w.state.panNumbers ++ r.identifier.toList,
        IsPanNumber p.data := by
      intro r p hp
      rcases List.mem_append.mp hp with hp | hp
      · exact ih p hp
      · cases r with
        | rejected => simp [Recognition.identifier] at hp
        | text t =>
          have hi : extractPanNumber t = some p := by
            simpa [Recognition.identifier, Option.mem_toList] using hp
          exact extractPanNumber_shape t p hi
    cases a with
    | cameraOpen a =>
      intro p hp
      simp only [World.step, cameraOpen_panNumbers] at hp
      exact ih p hp
    | closeCamera =>
      intro p hp
      simp only [World.step, closeCameraStream_panNumbers] at hp
      exact ih p hp
    | upload files imageUrl =>
      intro p hp
      simp only [World.step, uploadBegin_panNumbers] at hp
      exact ih p hp
    | capture frame =>
      intro p hp
      simp only [World.step, captureBegin_panNumbers] at hp
      exact ih p hp
    | settle i r =>
      intro p hp
      simp only [World.step] at hp
      cases hc : w.inFlight.get? i with
      | none => rw [hc] at hp; exact ih p hp
      | some call =>
        rw [hc] at hp
        cases call with
        | file f =>
          simp only [uploadResume_panNumbers] at hp
          exact happ r p hp
        | canvas fr =>
          simp only [captureResume_panNumbers] at hp
          exact happ r p hp
    | removeImage =>
      intro p hp
      simp only [World.step, removeImage_panNumbers] at hp
      cases hp
    | copy panNumber =>
      intro p hp
      simp only [World.step, handleCopyPanNumber] at hp
      exact ih p hp

theorem reachable_run (actions : List Action) : Reachable (initialWorld.run actions) := by
  have key : ∀ (acts : List Action) (w : World), Reachable w → Reachable (w.run acts) := by
    intro acts
    induction acts with
    | nil => intro w hw; exact hw
    | cons a acts ih => intro w hw; exact ih (w.step a) (Reachable.step w a hw)
  exact key actions initialWorld Reachable.init

/-- Witness of C7: the world after one PAN number was read from an uploaded file. -/
theorem reachable_panNumbers_shape_witness :
    Reachable oneNumberWorld ∧ oneNumberWorld.state.panNumbers = ["ABCDE1234F"] ∧
      ∀ p ∈ oneNumberWorld.state.panNumbers, IsPanNumber p.data :=
  ⟨reachable_run _, by decide, reachable_panNumbers_shape oneNumberWorld (reachable_run _)⟩

theorem stop_all_ended (stream : MediaStream) :
    ∀ track ∈ stream.map MediaStreamTrack.stop, track.readyState = ReadyState.ended := by
  intro track ht
  obtain ⟨t0, _, e⟩ := List.mem_map.mp ht
  rw [← e]; rfl

theorem stop_stop (stream : MediaStream) :
    (stream.map MediaStreamTrack.stop).map MediaStreamTrack.stop
      = stream.map MediaStreamTrack.stop := by
  rw [List.map_map]
  apply List.map_congr_left
  intro t _
  rfl

theorem closeCameraStream_all_ended (s : State) (stream : MediaStream)
    (h : (closeCameraStream s).srcObject = some stream) :
    ∀ track ∈ stream, track.readyState = ReadyState.ended := by
  rw [closeCameraStream_srcObject] at h
  cases hs : s.srcObject with
  | none => rw [hs] at h; cases h
  | some st =>
    rw [hs] at h
    simp only [Option.map_some', Option.some.injEq] at h
    rw [← h]
    exact stop_all_ended st

/-- C10. The function `closeCameraStream` is idempotent: in a state `t` with no stream
attached to the video element it changes nothing (and it is a total function: no
error), and in every state `s` calling it twice leaves the state that calling it
once leaves, in which every track of the attached stream is stopped. -/
theorem closeCameraStream_idempotent (s t : State) (h : t.srcObject = none) :
    closeCameraStream t = t ∧
    closeCameraStream (closeCameraStream s) = closeCameraStream s ∧
    ∀ stream, (closeCameraStream s).srcObject = some stream →
      ∀ track ∈ stream, track.readyState = ReadyState.ended := by
  refine ⟨?_, ?_, closeCameraStream_all_ended s⟩
  · unfold closeCameraStream
    rw [h]
  · cases hs : s.srcObject with
    | none =>
      have : closeCameraStream s = s := by unfold closeCameraStream; rw [hs]
      rw [this, this]
    | some st =>
      have e1 : closeCameraStream s
          = { s with srcObject := some (st.map MediaStreamTrack.stop) } := by
        unfold closeCameraStream; rw [hs]
      rw [e1]
      unfold closeCameraStream
      simp only [stop_stop]

/-- Witness of C10: the initial state has no stream, the state with a live camera has. -/
theorem closeCameraStream_idempotent_witness :
    initialState.srcObject = none ∧
    closeCameraStream initialState = initialState ∧
    closeCameraStream (closeCameraStream cameraLiveWorld.state)
      = closeCameraStream cameraLiveWorld.state ∧
    (closeCameraStream cameraLiveWorld.state).srcObject
      = some [{ id := "video-0", readyState := ReadyState.ended }] :=
  have h := closeCameraStream_idempotent cameraLiveWorld.state initialState rfl
  ⟨rfl, h.1, h.2.1, by decide⟩

/-- C3, as stated, fails: in the reachable state that shows an uploaded image with the
error that no PAN number was found, the camera having been opened before the upload,
`handleRemoveImage` leaves the error and the flag `openCamera` as they were. -/
theorem handleRemoveImage_keeps_error :
    Reachable cameraThenNotFoundWorld ∧
    (handleRemoveImage cameraThenNotFoundWorld.state).error
      = some "PAN number not found in the uploaded image." ∧
    (handleRemoveImage cameraThenNotFoundWorld.state).openCamera = true ∧
    ¬ ((handleRemoveImage cameraThenNotFoundWorld.state).panNumbers = [] ∧
      (handleRemoveImage cameraThenNotFoundWorld.state).uploadedImage = none ∧
      (handleRemoveImage cameraThenNotFoundWorld.state).error = none ∧
      (handleRemoveImage cameraThenNotFoundWorld.state).openCamera = false ∧
      ∀ stream, (handleRemoveImage cameraThenNotFoundWorld.state).srcObject = some stream →
        ∀ track ∈ stream, track.readyState = ReadyState.ended) := by
  refine ⟨reachable_run _, by decide, by decide, ?_⟩
  rintro ⟨-, -, he, -⟩
  revert he
  decide

/-- C3, amended. For every prior state, after `handleRemoveImage` the list
`panNumbers` is empty, `uploadedImage` is `null`, the stream attached to the video
element is the same stream with every track stopped, and `error` is what it was. -/
theorem handleRemoveImage_effect (s : State) :
    (handleRemoveImage s).panNumbers = [] ∧
    (handleRemoveImage s).uploadedImage = none ∧
    (handleRemoveImage s).error = s.error ∧
    (handleRemoveImage s).srcObject = s.srcObject.map (List.map MediaStreamTrack.stop) ∧
    ∀ stream, (handleRemoveImage s).srcObject = some stream →
      ∀ track ∈ stream, track.readyState = ReadyState.ended := by
  refine ⟨removeImage_panNumbers s, ?_, ?_, ?_, ?_⟩
  · unfold handleRemoveImage
    simp [closeCameraStream_uploadedImage]
  · unfold handleRemoveImage
    simp [closeCameraStream_error]
  · unfold handleRemoveImage
    simp [closeCameraStream_srcObject]
  · unfold handleRemoveImage
    exact closeCameraStream_all_ended _

/-- Witness of C3, amended: removal while the camera is live. -/
theorem handleRemoveImage_effect_witness :
    (handleRemoveImage cameraLiveWorld.state).srcObject
      = some [{ id := "video-0", readyState := ReadyState.ended }] ∧
    ∀ stream, (handleRemoveImage cameraLiveWorld.state).srcObject = some stream →
      ∀ track ∈ stream, track.readyState = ReadyState.ended :=
  ⟨by decide, (handleRemoveImage_effect cameraLiveWorld.state).2.2.2.2⟩

/-- C2, evaluated on the code. When no file was chosen, `handleImageUpload` has
finished without a recognition call and `loading` is `true`; on every other path of
`handleImageUpload` and on every path of `handleImageCapture` it is `false`. -/
theorem loading_after_handlers :
    (handleImageUploadBegin initialState [] "").2 = none ∧
    (handleImageUpload initialState [] "" Recognition.rejected).loading = true ∧
    (∀ (s : State) (imageUrl : String) (r : Recognition),
      (handleImageUpload s [] imageUrl r).loading = true) ∧
    (∀ (s : State) (file : File) (files : List File) (imageUrl : String) (r : Recognition),
      (handleImageUpload s (file :: files) imageUrl r).loading = false) ∧
    (∀ (s : State) (frame : String) (r : Recognition),
      (handleImageCapture s frame r).loading = false) := by
  refine ⟨rfl, rfl, ?_, ?_, ?_⟩
  · intro s imageUrl r
    simp [handleImageUpload, handleImageUploadBegin, closeCameraStream_loading]
  · intro s file files imageUrl r
    simp [handleImageUpload, handleImageUploadBegin, handleImageUploadResume]
  · intro s frame r
    simp [handleImageCapture, handleImageCaptureBegin, handleImageCaptureResume]

/-- C4, evaluated on the code. Opening the camera and then uploading a file, two
controls the page offers in those states, reaches a world where `openCamera` is
`true` and `uploadedImage` is set; capturing a frame instead resets `openCamera`. -/
theorem openCamera_with_uploadedImage :
    offered initialWorld.state (Action.cameraOpen (CameraAccess.granted sampleStream)) = true ∧
    offered cameraLiveWorld.state (Action.upload [sampleFile] "blob:pan") = true ∧
    Reachable (cameraLiveWorld.step (Action.upload [sampleFile] "blob:pan")) ∧
    (cameraLiveWorld.step (Action.upload [sampleFile] "blob:pan")).state.openCamera = true ∧
    (cameraLiveWorld.step (Action.upload [sampleFile] "blob:pan")).state.uploadedImage
      = some "blob:pan" ∧
    (cameraLiveWorld.step (Action.capture "data:image/jpeg;base64,AA")).state.openCamera
      = false := by
  refine ⟨by decide, by decide, ?_, by decide, by decide, by decide⟩
  exact Reachable.step _ _ (reachable_run _)

/-- C8, evaluated on the code. After a denied camera access (an error is shown,
`loading` is `false`), a change event with an empty file list sets `loading` and
clears the error: the state after the call is not the state before it. -/
theorem handleImageUpload_without_file :
    Reachable cameraDeniedWorld ∧
    cameraDeniedWorld.state.loading = false ∧
    cameraDeniedWorld.state.error = some "Error accessing camera. Please try again." ∧
    (handleImageUpload cameraDeniedWorld.state [] "" Recognition.rejected).loading = true ∧
    (handleImageUpload cameraDeniedWorld.state [] "" Recognition.rejected).error = none ∧
    handleImageUpload cameraDeniedWorld.state [] "" Recognition.rejected
      ≠ cameraDeniedWorld.state ∧
    handleImageUpload initialState [] "" Recognition.rejected ≠ initialState := by
  refine ⟨reachable_run _, by decide, by decide, by decide, by decide, by decide, by decide⟩

/-- C9, as stated, fails: while the recognition of an uploaded file is outstanding
(`loading` is `true`), a second upload issues a second recognition call and replaces
`uploadedImage`; two calls are then outstanding. -/
theorem reentrant_upload_starts_run :
    Reachable recognizingWorld ∧
    recognizingWorld.state.loading = true ∧
    (recognizingWorld.step (Action.upload [otherFile] "blob:other")).inFlight
      = [RecognizeCall.file sampleFile, RecognizeCall.file otherFile] ∧
    ¬ ((handleImageUploadBegin recognizingWorld.state [otherFile] "blob:other").2 = none ∧
      (handleImageUploadBegin recognizingWorld.state [otherFile] "blob:other").1.uploadedImage
        = recognizingWorld.state.uploadedImage ∧
      (handleImageUploadBegin recognizingWorld.state [otherFile] "blob:other").1.panNumbers
        = recognizingWorld.state.panNumbers) := by
  refine ⟨reachable_run _, by decide, by decide, ?_⟩
  rintro ⟨hc, -⟩
  revert hc
  decide

/-- C9, amended. The handlers have no guard on `loading`: in every state with
`loading = true`, `handleImageUpload` with a file and `handleImageCapture` each start
a run, that is, issue a recognition call (one more call is outstanding) and set
`uploadedImage` to the newly acquired image; `panNumbers` is unchanged at that point. -/
theorem no_guard_on_loading (w : World) (file : File) (files : List File)
    (imageUrl frame : String) (h : w.state.loading = true) :
    (handleImageUploadBegin w.state (file :: files) imageUrl).2 = some (RecognizeCall.file file) ∧
    (handleImageUploadBegin w.state (file :: files) imageUrl).1.uploadedImage = some imageUrl ∧
    (handleImageUploadBegin w.state (file :: files) imageUrl).1.panNumbers
      = w.state.panNumbers ∧
    (w.step (Action.upload (file :: files) imageUrl)).inFlight
      = w.inFlight ++ [RecognizeCall.file file] ∧
    (handleImageCaptureBegin w.state frame).2 = some (RecognizeCall.canvas frame) ∧
    (handleImageCaptureBegin w.state frame).1.uploadedImage = some frame ∧
    (handleImageCaptureBegin w.state frame).1.panNumbers = w.state.panNumbers ∧
    (w.step (Action.capture frame)).inFlight = w.inFlight ++ [RecognizeCall.canvas frame] := by
  have _ := h
  refine ⟨?_, ?_, ?_, ?_, ?_, ?_, ?_, ?_⟩
  · simp [handleImageUploadBegin]
  · simp [handleImageUploadBegin]
  · exact uploadBegin_panNumbers _ _ _
  · simp [World.step, handleImageUploadBegin]
  · simp [handleImageCaptureBegin]
  · simp [handleImageCaptureBegin]
  · exact captureBegin_panNumbers _ _
  · simp [World.step, handleImageCaptureBegin]

/-- Witness of C9, amended: a second upload and a capture while a recognition is
outstanding. -/
theorem no_guard_on_loading_witness :
    recognizingWorld.state.loading = true ∧
    (handleImageUploadBegin recognizingWorld.state [otherFile] "blob:other").2
      = some (RecognizeCall.file otherFile) ∧
    (recognizingWorld.step (Action.capture "data:image/jpeg;base64,AA")).inFlight
      = recognizingWorld.inFlight ++ [RecognizeCall.canvas "data:image/jpeg;base64,AA"] :=
  have h := no_guard_on_loading recognizingWorld otherFile [] "blob:other"
    "data:image/jpeg;base64,AA" (by decide)
  ⟨by decide, h.1, h.2.2.2.2.2.2.2⟩

end PanCardReader
